import Mathlib

/-!
Shallow embedding of the cw5rcbot core (src/bot.py, src/config.py,
src/database.py): the rate limiter, the forwarded-message classifier and
orchestrator, the snapshot-update operations, the language command and the
menu access check. Timestamps are integers counted in microseconds, the
native resolution of Python's datetime and timedelta, so every duration
comparison of the source is exact here. The SQL
store is a function from telegram ids to optional user rows; the
Translation table is a function from key and language to an optional text.
Python code that can raise is embedded in `Except`.
-/

namespace CwBot

/-- Substring containment on lists of characters (Python `sub in text`). -/
def listPrefixOf : List Char → List Char → Bool
  | [], _ => true
  | _ :: _, [] => false
  | a :: as, b :: bs => a == b && listPrefixOf as bs

/-- Helper for `strContains`: does `needle` occur inside the second list? -/
def listInfixOf (needle : List Char) : List Char → Bool
  | [] => listPrefixOf needle []
  | b :: bs => listPrefixOf needle (b :: bs) || listInfixOf needle bs

/-- Python `sub in text` on strings. -/
def strContains (text sub : String) : Bool :=
  listInfixOf sub.data text.data

/-- Python `text.startswith(pre)`. -/
def strStartsWith (text pre : String) : Bool :=
  listPrefixOf pre.data text.data

/-- Microseconds per second: timestamps and durations are in microseconds. -/
def usPerSecond : ℤ := 1000000

/-- src/config.py line 37: `RATE_LIMIT = 1.0` (seconds). -/
def RATE_LIMIT : ℤ := 1

/-- src/bot.py lines 30-34. -/
def START_MESSAGE : String :=
  "To access the bot's functionality, please send your current /hero from Chat Wars.\n\n" ++
  "Para acceder a la funcionalidad del bot, envíe su /hero actual desde Chat Wars.\n\n" ++
  "Для получения доступа к функционалу бота, отправьте актуальный /hero из Chat Wars."

/-- src/bot.py lines 36-40. -/
def SUCCESS_MESSAGE : String :=
  "Data successfully updated.\n\n" ++
  "Datos actualizados con éxito.\n\n" ++
  "Данные обновлены успешно."

/-- src/bot.py lines 42-46. -/
def UNAUTHORIZED_MESSAGE : String :=
  "Access is allowed only for Red Castle players.\n\n" ++
  "El acceso está permitido solo para los jugadores del Castillo Rojo.\n\n" ++
  "Доступ разрешён только для игроков красного замка."

/-- src/bot.py lines 49-53. -/
def LANGUAGE_PROMPT : String :=
  "Please select a language by using /set_en.\n\n" ++
  "Por favor seleccione un idioma usando /set_es.\n\n" ++
  "Пожалуйста, выберите язык, используя /set_ru."

/-- src/bot.py line 133: reply on an unrecognized forwarded message. -/
def UNRECOGNIZED_MESSAGE : String :=
  "Unrecognized message format. Please send /hero, /bag, or /numbers."

/-- One row of the `users` table (src/database.py lines 17-46).  Nullable
columns are `Option`; `role` defaults to "player" and `trust_status` is
null until hero processing writes it. -/
structure User where
  telegram_id : Nat
  username : Option String := none
  first_name : Option String := none
  last_name : Option String := none
  language : String := "en"
  timezone_offset : Int := 0
  created_at : ℤ := 0
  hero_info : Option String := none
  last_hero_update : Option ℤ := none
  bag : Option String := none
  last_bag_update : Option ℤ := none
  numbers : Option String := none
  last_numbers_update : Option ℤ := none
  role : String := "player"
  trust_status : Option String := none
deriving DecidableEq, Repr

/-- The `users` table keyed by `telegram_id`. -/
abbrev Store := Nat → Option User

/-- The `translations` table (src/database.py lines 50-55) as a lookup:
key and language to the stored text, `none` when no row matches. -/
abbrev Translations := String → String → Option String

/-- Write the row for one telegram id (the session commit of an added or
mutated `User`). -/
def storeInsert (store : Store) (id : Nat) (u : User) : Store :=
  fun i => if i = id then some u else store i

/-- An inbound Telegram message as the handlers see it: sender fields,
text, the forward timestamp and the chat type, plus the forwarded-from
username that the router filter at src/bot.py line 89 inspects. -/
structure Message where
  from_user_id : Nat
  from_username : Option String := none
  from_first_name : Option String := none
  from_last_name : Option String := none
  text : String
  forward_date : ℤ
  chat_type : String := "private"
  forward_from_username : Option String := some "ChatWarsBot"
deriving Repr

/-- The state held by `RateLimiterMiddleware` (src/bot.py lines 66-69):
`users_last_message` maps a user id to the last admitted time. -/
structure RateLimiterState where
  users_last_message : Nat → Option ℤ

/-- `RateLimiterMiddleware.__call__` (src/bot.py lines 71-82): returns
whether the event is admitted to the handler, and the state afterwards.
A rejected event leaves the map untouched; an admitted one overwrites
the entry with `now`. -/
def rateLimiterCall (st : RateLimiterState) (user_id : Nat) (now : ℤ) :
    Bool × RateLimiterState :=
  match st.users_last_message user_id with
  | some last_time =>
      if now - last_time < RATE_LIMIT * usPerSecond then
        (false, st)
      else
        (true, ⟨fun i => if i = user_id then some now else st.users_last_message i⟩)
  | none =>
      (true, ⟨fun i => if i = user_id then some now else st.users_last_message i⟩)

/-- The kind of forwarded message, as decided by the marker chain at
src/bot.py lines 122-133. -/
inductive MessageKind where
  | hero
  | equipment
  | numbers
  | unrecognized
deriving DecidableEq, Repr

/-- The if/elif marker chain of `process_forwarded_message`
(src/bot.py lines 122-133): hero marker first, then equipment, then
numbers, else unrecognized. -/
def classify (text : String) : MessageKind :=
  if strContains text "🗡️Attack Force:" then MessageKind.hero
  else if strContains text "🧳Equipment" then MessageKind.equipment
  else if strContains text "Additional info" then MessageKind.numbers
  else MessageKind.unrecognized

/-- `process_hero_message` (src/bot.py lines 141-152): derives trust from
the flag prefix, overwrites `hero_info`, `last_hero_update` and
`trust_status`, and answers success or unauthorized. -/
def process_hero_message (text : String) (now : ℤ) (user : User) :
    User × List String :=
  let is_red_castle := strStartsWith text "🇮🇲"
  let user' := { user with
    trust_status := some (if is_red_castle then "trusted" else "untrusted"),
    hero_info := some text,
    last_hero_update := some now }
  (user', [if is_red_castle then SUCCESS_MESSAGE else UNAUTHORIZED_MESSAGE])

/-- `get_translated_message` (src/bot.py lines 170-176). -/
def get_translated_message (translations : Translations)
    (key language : String) : String :=
  (translations key language).getD "Operation completed successfully."

/-- `process_bag_message` (src/bot.py lines 154-160): overwrites `bag` and
`last_bag_update` only. -/
def process_bag_message (translations : Translations) (text : String)
    (now : ℤ) (user : User) : User × List String :=
  let user' := { user with bag := some text, last_bag_update := some now }
  (user', [get_translated_message translations "operation_successful" user.language])

/-- `process_numbers_message` (src/bot.py lines 162-168): overwrites
`numbers` and `last_numbers_update` only. -/
def process_numbers_message (translations : Translations) (text : String)
    (now : ℤ) (user : User) : User × List String :=
  let user' := { user with numbers := some text, last_numbers_update := some now }
  (user', [get_translated_message translations "operation_successful" user.language])

/-- `process_forwarded_message` (src/bot.py lines 89-139) together with the
router filter on line 89: ignore events that are not forwards from
ChatWarsBot or not in a private chat; reject forwards older than
40 seconds with the onboarding message before touching the store;
register unknown senders (onboarding plus language prompt, no
classification); otherwise dispatch on the marker chain.  Returns the
store after the event and the list of replies sent. -/
def process_forwarded_message (translations : Translations) (msg : Message)
    (now : ℤ) (store : Store) : Store × List String :=
  if msg.forward_from_username ≠ some "ChatWarsBot" then (store, [])
  else if msg.chat_type ≠ "private" then (store, [])
  else if now - msg.forward_date > 40 * usPerSecond then (store, [START_MESSAGE])
  else
    match store msg.from_user_id with
    | none =>
        let user : User := {
          telegram_id := msg.from_user_id,
          username := msg.from_username,
          first_name := msg.from_first_name,
          last_name := msg.from_last_name,
          language := "en",
          created_at := now }
        (storeInsert store msg.from_user_id user, [START_MESSAGE, LANGUAGE_PROMPT])
    | some user =>
        match classify msg.text with
        | MessageKind.hero =>
            let r := process_hero_message msg.text now user
            (storeInsert store msg.from_user_id r.1, r.2)
        | MessageKind.equipment =>
            let r := process_bag_message translations msg.text now user
            (storeInsert store msg.from_user_id r.1, r.2)
        | MessageKind.numbers =>
            let r := process_numbers_message translations msg.text now user
            (storeInsert store msg.from_user_id r.1, r.2)
        | MessageKind.unrecognized => (store, [UNRECOGNIZED_MESSAGE])

/-- `check_user_access` (src/bot.py lines 180-204).  The source subtracts
`user.last_hero_update` from the current time before any branch, so a row
whose hero timestamp was never written raises a TypeError; that is
embedded as `Except.error`.  Otherwise: not trusted denies with the
untrusted text, an update older than 48 hours denies with the outdated
text, else access is granted. -/
def check_user_access (translations : Translations) (user : User) (now : ℤ) :
    Except String (Bool × Option String) :=
  match user.last_hero_update with
  | none => Except.error "TypeError: cannot subtract NoneType from datetime"
  | some last =>
      let time_since_last_update := now - last
      if user.trust_status ≠ some "trusted" then
        Except.ok (false, some ((translations "access_denied_untrusted" user.language).getD
          "Access to the bot is denied due to loss of trust."))
      else if time_since_last_update > 48 * 3600 * usPerSecond then
        Except.ok (false, some ((translations "data_outdated" user.language).getD
          "Your data is outdated. Please forward a new /hero from the game."))
      else
        Except.ok (true, none)

/-- `set_language_command` (src/bot.py lines 320-349): in a private chat,
an unknown sender gets the onboarding message; a known one gets the
language overwritten and a translated (or default) success reply. -/
def set_language_command (translations : Translations) (chat_type : String)
    (user_id : Nat) (language_code : String) (store : Store) :
    Store × List String :=
  if chat_type ≠ "private" then (store, [])
  else
    match store user_id with
    | none => (store, [START_MESSAGE])
    | some user =>
        let user' := { user with language := language_code }
        (storeInsert store user_id user',
         [(translations "operation_successful" language_code).getD
            "Operation completed successfully"])

/-! Concrete instances used to evaluate the development on explicit
inputs: an empty translations table, a few user rows and stores, and a
few inbound messages.  Times below are microseconds, e.g.
`41 * usPerSecond` is 41 seconds. -/

/-- An empty `translations` table: every lookup falls back to its default. -/
def noTranslations : Translations := fun _ _ => none

/-- A row as registration creates it: no snapshots, `trust_status` null. -/
def freshUser : User := { telegram_id := 7 }

/-- A row whose hero snapshot was processed without the flag marker:
untrusted, with a hero timestamp. -/
def untrustedRecentUser : User :=
  { telegram_id := 8, trust_status := some "untrusted",
    hero_info := some "Hero\n🗡️Attack Force: 10", last_hero_update := some 0 }

/-- A trusted row whose hero snapshot was updated at time 0. -/
def trustedUser : User :=
  { telegram_id := 9, trust_status := some "trusted",
    hero_info := some "🇮🇲Hero\n🗡️Attack Force: 10", last_hero_update := some 0 }

/-- A registered user with no bag snapshot yet. -/
def existingUser : User :=
  { telegram_id := 7, trust_status := some "untrusted",
    hero_info := some "Hero\n🗡️Attack Force: 10", last_hero_update := some 0 }

/-- A store holding exactly `existingUser` under id 7. -/
def oneUserStore : Store := fun i => if i = 7 then some existingUser else none

/-- The empty users table. -/
def emptyStore : Store := fun _ => none

/-- An equipment forward stamped at time 0 (expired once `now` passes 40 s). -/
def bagMsg : Message :=
  { from_user_id := 7, text := "🧳Equipment\nstuff", forward_date := 0 }

/-- A hero text carrying both the attack-force marker and the leading flag. -/
def heroTrustedText : String := "🇮🇲Player\n🗡️Attack Force: 200"

/-- A hero forward from an unregistered sender, stamped at time 0. -/
def heroMsgNewUser : Message :=
  { from_user_id := 11, text := heroTrustedText, forward_date := 0 }

/-- The same hero text re-forwarded with a fresh stamp at 100 s. -/
def heroMsgSecond : Message :=
  { from_user_id := 11, text := heroTrustedText,
    forward_date := 100 * usPerSecond }

/-- The rate-limiter map with no entries. -/
def emptyRL : RateLimiterState := ⟨fun _ => none⟩

/-- The rate-limiter map after one admitted event of user 1 at time 0. -/
def rlAfterFirst : RateLimiterState := (rateLimiterCall emptyRL 1 0).2

/-- C4: classification is a fixed-priority substring match: a text holding
the hero marker classifies as hero even when the equipment marker is also
present, and a text holding none of the three markers classifies as
unrecognized. -/
theorem classify_priority_hero_first (text : String) :
    (strContains text "🗡️Attack Force:" = true ∧
        strContains text "🧳Equipment" = true →
      classify text = MessageKind.hero)
    ∧ (strContains text "🗡️Attack Force:" = false ∧
        strContains text "🧳Equipment" = false ∧
        strContains text "Additional info" = false →
      classify text = MessageKind.unrecognized) := by
  constructor
  · rintro ⟨h1, _⟩
    simp [classify, h1]
  · rintro ⟨h1, h2, h3⟩
    simp [classify, h1, h2, h3]

/-- C4 witness: a text with both the hero and the equipment marker is
hero; a markerless text is unrecognized. -/
theorem classify_priority_hero_first_witness :
    classify "🗡️Attack Force: 10\n🧳Equipment" = MessageKind.hero ∧
    classify "hello" = MessageKind.unrecognized :=
  ⟨(classify_priority_hero_first _).1 ⟨by decide, by decide⟩,
   (classify_priority_hero_first _).2 ⟨by decide, by decide, by decide⟩⟩

/-- C5: hero processing stores `trusted` exactly when the text starts with
the flag marker, `untrusted` exactly when it does not, and nothing else. -/
theorem process_hero_trust_binary (text : String) (now : ℤ) (user : User) :
    ((process_hero_message text now user).1.trust_status = some "trusted" ↔
      strStartsWith text "🇮🇲" = true)
    ∧ ((process_hero_message text now user).1.trust_status = some "untrusted" ↔
      strStartsWith text "🇮🇲" = false)
    ∧ ((process_hero_message text now user).1.trust_status = some "trusted" ∨
       (process_hero_message text now user).1.trust_status = some "untrusted") := by
  cases h : strStartsWith text "🇮🇲" <;> simp [process_hero_message, h]

/-- C8: each snapshot-update operation writes exactly its own text field
and timestamp — hero writes `hero_info`, `last_hero_update` (and
`trust_status`), bag writes `bag`, `last_bag_update`, numbers writes
`numbers`, `last_numbers_update` — and leaves every other column of the
row unchanged. -/
theorem snapshot_update_frame (tr : Translations) (text : String) (now : ℤ)
    (user : User) :
    ((process_hero_message text now user).1.bag = user.bag ∧
     (process_hero_message text now user).1.last_bag_update = user.last_bag_update ∧
     (process_hero_message text now user).1.numbers = user.numbers ∧
     (process_hero_message text now user).1.last_numbers_update = user.last_numbers_update ∧
     (process_hero_message text now user).1.telegram_id = user.telegram_id ∧
     (process_hero_message text now user).1.username = user.username ∧
     (process_hero_message text now user).1.first_name = user.first_name ∧
     (process_hero_message text now user).1.last_name = user.last_name ∧
     (process_hero_message text now user).1.language = user.language ∧
     (process_hero_message text now user).1.timezone_offset = user.timezone_offset ∧
     (process_hero_message text now user).1.created_at = user.created_at ∧
     (process_hero_message text now user).1.role = user.role ∧
     (process_hero_message text now user).1.hero_info = some text ∧
     (process_hero_message text now user).1.last_hero_update = some now)
    ∧ ((process_bag_message tr text now user).1.hero_info = user.hero_info ∧
     (process_bag_message tr text now user).1.last_hero_update = user.last_hero_update ∧
     (process_bag_message tr text now user).1.numbers = user.numbers ∧
     (process_bag_message tr text now user).1.last_numbers_update = user.last_numbers_update ∧
     (process_bag_message tr text now user).1.trust_status = user.trust_status ∧
     (process_bag_message tr text now user).1.telegram_id = user.telegram_id ∧
     (process_bag_message tr text now user).1.username = user.username ∧
     (process_bag_message tr text now user).1.first_name = user.first_name ∧
     (process_bag_message tr text now user).1.last_name = user.last_name ∧
     (process_bag_message tr text now user).1.language = user.language ∧
     (process_bag_message tr text now user).1.timezone_offset = user.timezone_offset ∧
     (process_bag_message tr text now user).1.created_at = user.created_at ∧
     (process_bag_message tr text now user).1.role = user.role ∧
     (process_bag_message tr text now user).1.bag = some text ∧
     (process_bag_message tr text now user).1.last_bag_update = some now)
    ∧ ((process_numbers_message tr text now user).1.hero_info = user.hero_info ∧
     (process_numbers_message tr text now user).1.last_hero_update = user.last_hero_update ∧
     (process_numbers_message tr text now user).1.bag = user.bag ∧
     (process_numbers_message tr text now user).1.last_bag_update = user.last_bag_update ∧
     (process_numbers_message tr text now user).1.trust_status = user.trust_status ∧
     (process_numbers_message tr text now user).1.telegram_id = user.telegram_id ∧
     (process_numbers_message tr text now user).1.username = user.username ∧
     (process_numbers_message tr text now user).1.first_name = user.first_name ∧
     (process_numbers_message tr text now user).1.last_name = user.last_name ∧
     (process_numbers_message tr text now user).1.language = user.language ∧
     (process_numbers_message tr text now user).1.timezone_offset = user.timezone_offset ∧
     (process_numbers_message tr text now user).1.created_at = user.created_at ∧
     (process_numbers_message tr text now user).1.role = user.role ∧
     (process_numbers_message tr text now user).1.numbers = some text ∧
     (process_numbers_message tr text now user).1.last_numbers_update = some now) := by
  refine ⟨⟨rfl, rfl, rfl, rfl, rfl, rfl, rfl, rfl, rfl, rfl, rfl, rfl, rfl, rfl⟩,
    ⟨rfl, rfl, rfl, rfl, rfl, rfl, rfl, rfl, rfl, rfl, rfl, rfl, rfl, rfl, rfl⟩,
    ⟨rfl, rfl, rfl, rfl, rfl, rfl, rfl, rfl, rfl, rfl, rfl, rfl, rfl, rfl, rfl⟩⟩

/-- C1 counterexample: on a record that is not trusted and whose
hero-snapshot timestamp has never been set, `check_user_access` does not
return the untrusted denial — it raises (src/bot.py line 183 subtracts the
null timestamp before the trust branch). -/
theorem check_user_access_none_timestamp_raises :
    check_user_access noTranslations freshUser (1000 * usPerSecond) =
      Except.error "TypeError: cannot subtract NoneType from datetime" ∧
    check_user_access noTranslations freshUser (1000 * usPerSecond) ≠
      Except.ok (false, some "Access to the bot is denied due to loss of trust.") := by
  refine ⟨rfl, ?_⟩
  intro h
  exact Except.noConfusion h

/-- C1 (amended): on every record whose hero-snapshot timestamp is set,
`check_user_access` denies with the untrusted text whenever
`trust_status` is not trusted, regardless of the snapshot's age; a record
with a null timestamp instead raises before reaching the trust branch. -/
theorem check_user_access_untrusted_denies (tr : Translations) (user : User)
    (now t : ℤ) (hset : user.last_hero_update = some t)
    (huntrusted : user.trust_status ≠ some "trusted") :
    check_user_access tr user now =
      Except.ok (false, some ((tr "access_denied_untrusted" user.language).getD
        "Access to the bot is denied due to loss of trust.")) := by
  simp [check_user_access, hset, huntrusted]

/-- C1 witness: a record updated one minute ago but untrusted is denied
with the untrusted text. -/
theorem check_user_access_untrusted_denies_witness :
    check_user_access noTranslations untrustedRecentUser (60 * usPerSecond) =
      Except.ok (false, some "Access to the bot is denied due to loss of trust.") := by
  have h := check_user_access_untrusted_denies noTranslations untrustedRecentUser
    (60 * usPerSecond) 0 rfl (by decide)
  simpa [noTranslations] using h

/-- C7: on a trusted record with a set hero timestamp, access is denied
as outdated exactly when the snapshot is strictly older than 48 hours,
and granted otherwise. -/
theorem check_user_access_staleness (tr : Translations) (user : User)
    (now t : ℤ) (htrust : user.trust_status = some "trusted")
    (hset : user.last_hero_update = some t) :
    (now - t > 48 * 3600 * usPerSecond →
      check_user_access tr user now =
        Except.ok (false, some ((tr "data_outdated" user.language).getD
          "Your data is outdated. Please forward a new /hero from the game.")))
    ∧ (¬ now - t > 48 * 3600 * usPerSecond →
      check_user_access tr user now = Except.ok (true, none)) := by
  constructor <;> intro h <;>
    (simp [check_user_access, hset, htrust, usPerSecond] at h ⊢; omega)

/-- C7 witness: a trusted record is denied as outdated at a snapshot age
of 49 hours and granted access at 47 hours. -/
theorem check_user_access_staleness_witness :
    check_user_access noTranslations trustedUser (49 * 3600 * usPerSecond) =
      Except.ok (false,
        some "Your data is outdated. Please forward a new /hero from the game.") ∧
    check_user_access noTranslations trustedUser (47 * 3600 * usPerSecond) =
      Except.ok (true, none) := by
  constructor
  · have h := (check_user_access_staleness noTranslations trustedUser
      (49 * 3600 * usPerSecond) 0 rfl rfl).1 (by decide)
    simpa [noTranslations] using h
  · exact (check_user_access_staleness noTranslations trustedUser
      (47 * 3600 * usPerSecond) 0 rfl rfl).2 (by decide)

/-- C3: the middleware admits an event exactly when no timestamp is stored
for the user or at least the configured interval has passed since the
stored one; an admitted event overwrites (only) that user's timestamp with
`now`, and a rejected one leaves the whole map unchanged. -/
theorem rate_limiter_admit_spec (st : RateLimiterState) (user_id : Nat)
    (now : ℤ) :
    ((rateLimiterCall st user_id now).1 = true ↔
      st.users_last_message user_id = none ∨
      ∃ last, st.users_last_message user_id = some last ∧
        RATE_LIMIT * usPerSecond ≤ now - last)
    ∧ ((rateLimiterCall st user_id now).1 = true →
        (rateLimiterCall st user_id now).2.users_last_message user_id = some now ∧
        ∀ j, j ≠ user_id →
          (rateLimiterCall st user_id now).2.users_last_message j =
            st.users_last_message j)
    ∧ ((rateLimiterCall st user_id now).1 = false →
        (rateLimiterCall st user_id now).2 = st) := by
  rcases hl : st.users_last_message user_id with _ | last
  · refine ⟨by simp [rateLimiterCall, hl], fun _ => ⟨by simp [rateLimiterCall, hl], ?_⟩,
      fun hfalse => by simp [rateLimiterCall, hl] at hfalse⟩
    intro j hj
    simp [rateLimiterCall, hl, hj]
  · by_cases hlt : now - last < RATE_LIMIT * usPerSecond
    · refine ⟨?_, fun htrue => by simp [rateLimiterCall, hl, hlt] at htrue, fun _ => ?_⟩
      · simp only [rateLimiterCall, hl, if_pos hlt]
        simp only [Option.some.injEq]
        constructor
        · intro h
          exact Bool.noConfusion h
        · rintro (h | ⟨l, hl2, hle⟩)
          · exact Option.noConfusion h
          · subst hl2
            exact absurd hle (not_le.mpr hlt)
      · simp [rateLimiterCall, hl, if_pos hlt]
    · refine ⟨?_, fun _ => ⟨by simp [rateLimiterCall, hl, if_neg hlt],
        fun j hj => by simp [rateLimiterCall, hl, if_neg hlt, hj]⟩,
        fun hfalse => by simp [rateLimiterCall, hl, if_neg hlt] at hfalse⟩
      simp only [rateLimiterCall, hl, if_neg hlt]
      constructor
      · intro _
        exact Or.inr ⟨last, rfl, not_lt.mp hlt⟩
      · intro _
        trivial

/-- C3 witness: with the 1 second interval, calls of the same user at 0 s,
0.5 s and 1.1 s are admitted, rejected and admitted, and the rejected call
leaves the stored map unchanged. -/
theorem rate_limiter_admit_spec_witness :
    (rateLimiterCall emptyRL 1 0).1 = true ∧
    (rateLimiterCall rlAfterFirst 1 500000).1 = false ∧
    (rateLimiterCall rlAfterFirst 1 500000).2 = rlAfterFirst ∧
    (rateLimiterCall rlAfterFirst 1 1100000).1 = true := by
  refine ⟨(rate_limiter_admit_spec emptyRL 1 0).1.mpr (Or.inl rfl), by decide, rfl, ?_⟩
  exact (rate_limiter_admit_spec rlAfterFirst 1 1100000).1.mpr
    (Or.inr ⟨0, rfl, by decide⟩)

/-- C2 counterexample: an equipment forward 41 seconds old is not
classified and its snapshot is not updated — the handler answers only the
onboarding message and the stored row keeps its null bag fields, because
the 40-second gate at src/bot.py line 97 runs for every forwarded message,
not only hero ones. -/
theorem expired_equipment_not_updated :
    (process_forwarded_message noTranslations bagMsg (41 * usPerSecond)
        oneUserStore).2 = [START_MESSAGE] ∧
    (process_forwarded_message noTranslations bagMsg (41 * usPerSecond)
        oneUserStore).1 7 = some existingUser ∧
    existingUser.bag = none ∧
    existingUser.last_bag_update = none :=
  ⟨rfl, rfl, rfl, rfl⟩

/-- C2 (amended): the 40-second freshness gate applies to every forwarded
message, whatever its kind: any forward older than 40 seconds yields only
the onboarding prompt and leaves the store untouched. -/
theorem forwarded_expired_rejected_all_kinds (tr : Translations)
    (msg : Message) (now : ℤ) (store : Store)
    (hfwd : msg.forward_from_username = some "ChatWarsBot")
    (hchat : msg.chat_type = "private")
    (hold : now - msg.forward_date > 40 * usPerSecond) :
    process_forwarded_message tr msg now store = (store, [START_MESSAGE]) := by
  simp [process_forwarded_message, hfwd, hchat, hold]

/-- C2 witness: the 41-second-old equipment forward is rejected with the
onboarding message and no store change. -/
theorem forwarded_expired_rejected_all_kinds_witness :
    process_forwarded_message noTranslations bagMsg (41 * usPerSecond)
      oneUserStore = (oneUserStore, [START_MESSAGE]) :=
  forwarded_expired_rejected_all_kinds noTranslations bagMsg
    (41 * usPerSecond) oneUserStore rfl rfl (by decide)

/-- C10: a forward older than 40 seconds from an unregistered sender
causes no store write at all — the expiry check precedes the lookup, so
the store is returned unchanged, no row is created for the sender, and the
only effect is the onboarding reply. -/
theorem expired_forward_before_lookup_no_write (tr : Translations)
    (msg : Message) (now : ℤ) (store : Store)
    (hfwd : msg.forward_from_username = some "ChatWarsBot")
    (hchat : msg.chat_type = "private")
    (hold : now - msg.forward_date > 40 * usPerSecond)
    (hnew : store msg.from_user_id = none) :
    (process_forwarded_message tr msg now store).1 = store ∧
    (process_forwarded_message tr msg now store).2 = [START_MESSAGE] ∧
    (process_forwarded_message tr msg now store).1 msg.from_user_id = none := by
  have h : process_forwarded_message tr msg now store = (store, [START_MESSAGE]) := by
    simp [process_forwarded_message, hfwd, hchat, hold]
  refine ⟨by rw [h], by rw [h], by rw [h]; exact hnew⟩

/-- C10 witness: a 41-second-old hero forward from an unknown sender
leaves the empty store empty and draws only the onboarding reply. -/
theorem expired_forward_before_lookup_no_write_witness :
    (process_forwarded_message noTranslations heroMsgNewUser
        (41 * usPerSecond) emptyStore).1 = emptyStore ∧
    (process_forwarded_message noTranslations heroMsgNewUser
        (41 * usPerSecond) emptyStore).2 = [START_MESSAGE] ∧
    (process_forwarded_message noTranslations heroMsgNewUser
        (41 * usPerSecond) emptyStore).1 11 = none := by
  have h := expired_forward_before_lookup_no_write noTranslations heroMsgNewUser
    (41 * usPerSecond) emptyStore rfl rfl (by decide) rfl
  exact ⟨h.1, h.2.1, h.2.2⟩

/-- C6 counterexample: an event from an unregistered sender does not
always create the record — a hero forward with the trust marker that is
41 seconds old creates nothing and is answered with the onboarding
message alone, without the language prompt. -/
theorem new_user_expired_forward_not_registered :
    (process_forwarded_message noTranslations heroMsgNewUser
        (41 * usPerSecond) emptyStore).1 11 = none ∧
    (process_forwarded_message noTranslations heroMsgNewUser
        (41 * usPerSecond) emptyStore).2 = [START_MESSAGE] :=
  ⟨rfl, rfl⟩

/-- C6 (amended): for every event within the 40-second window whose sender
has no record, the handler creates the row (default language, no
snapshots, no trust), answers with the onboarding message plus the
language prompt and performs no classification; a second fresh forward of
the same hero text with the trust marker then updates the hero snapshot,
sets trusted and answers with the success message. -/
theorem new_user_registration_then_hero_update (tr : Translations)
    (msg msg2 : Message) (now now2 : ℤ) (store : Store)
    (hfwd : msg.forward_from_username = some "ChatWarsBot")
    (hchat : msg.chat_type = "private")
    (hfresh : ¬ now - msg.forward_date > 40 * usPerSecond)
    (hnew : store msg.from_user_id = none)
    (hid : msg2.from_user_id = msg.from_user_id)
    (htext : msg2.text = msg.text)
    (hfwd2 : msg2.forward_from_username = some "ChatWarsBot")
    (hchat2 : msg2.chat_type = "private")
    (hfresh2 : ¬ now2 - msg2.forward_date > 40 * usPerSecond)
    (hhero : strContains msg.text "🗡️Attack Force:" = true)
    (htrust : strStartsWith msg.text "🇮🇲" = true) :
    (process_forwarded_message tr msg now store).2 =
      [START_MESSAGE, LANGUAGE_PROMPT] ∧
    (process_forwarded_message tr msg now store).1 msg.from_user_id = some
      { telegram_id := msg.from_user_id, username := msg.from_username,
        first_name := msg.from_first_name, last_name := msg.from_last_name,
        language := "en", created_at := now } ∧
    ((process_forwarded_message tr msg2 now2
        (process_forwarded_message tr msg now store).1).1
      msg.from_user_id).map User.trust_status = some (some "trusted") ∧
    ((process_forwarded_message tr msg2 now2
        (process_forwarded_message tr msg now store).1).1
      msg.from_user_id).map User.hero_info = some (some msg.text) ∧
    ((process_forwarded_message tr msg2 now2
        (process_forwarded_message tr msg now store).1).1
      msg.from_user_id).map User.last_hero_update = some (some now2) ∧
    (process_forwarded_message tr msg2 now2
        (process_forwarded_message tr msg now store).1).2 = [SUCCESS_MESSAGE] := by
  have hcl : classify msg.text = MessageKind.hero := by simp [classify, hhero]
  have h1 : process_forwarded_message tr msg now store =
      (storeInsert store msg.from_user_id
        { telegram_id := msg.from_user_id, username := msg.from_username,
          first_name := msg.from_first_name, last_name := msg.from_last_name,
          language := "en", created_at := now },
       [START_MESSAGE, LANGUAGE_PROMPT]) := by
    simp [process_forwarded_message, hfwd, hchat, hfresh, hnew]
  refine ⟨by rw [h1], by rw [h1]; simp [storeInsert], ?_, ?_, ?_, ?_⟩ <;>
    (rw [h1]
     simp [process_forwarded_message, hfwd2, hchat2, hfresh2, storeInsert, hid,
       htext, hcl, process_hero_message, htrust])

/-- C6 witness: a fresh trusted hero forward from unknown sender 11
registers the row (no snapshots) with onboarding plus language prompt; the
same text re-forwarded fresh then stores the hero snapshot, turns the row
trusted and draws the success message. -/
theorem new_user_registration_then_hero_update_witness :
    (process_forwarded_message noTranslations heroMsgNewUser
        (10 * usPerSecond) emptyStore).2 = [START_MESSAGE, LANGUAGE_PROMPT] ∧
    (process_forwarded_message noTranslations heroMsgNewUser
        (10 * usPerSecond) emptyStore).1 11 = some
      { telegram_id := 11, language := "en", created_at := 10 * usPerSecond } ∧
    ((process_forwarded_message noTranslations heroMsgSecond (110 * usPerSecond)
        (process_forwarded_message noTranslations heroMsgNewUser
          (10 * usPerSecond) emptyStore).1).1 11).map User.trust_status =
      some (some "trusted") ∧
    ((process_forwarded_message noTranslations heroMsgSecond (110 * usPerSecond)
        (process_forwarded_message noTranslations heroMsgNewUser
          (10 * usPerSecond) emptyStore).1).1 11).map User.hero_info =
      some (some heroTrustedText) ∧
    ((process_forwarded_message noTranslations heroMsgSecond (110 * usPerSecond)
        (process_forwarded_message noTranslations heroMsgNewUser
          (10 * usPerSecond) emptyStore).1).1 11).map User.last_hero_update =
      some (some (110 * usPerSecond)) ∧
    (process_forwarded_message noTranslations heroMsgSecond (110 * usPerSecond)
        (process_forwarded_message noTranslations heroMsgNewUser
          (10 * usPerSecond) emptyStore).1).2 = [SUCCESS_MESSAGE] := by
  have h := new_user_registration_then_hero_update noTranslations heroMsgNewUser
    heroMsgSecond (10 * usPerSecond) (110 * usPerSecond) emptyStore
    rfl rfl (by decide) rfl rfl rfl rfl rfl (by decide) (by decide) (by decide)
  exact h

/-- C9: `trust_status` is written only by hero processing — bag and
numbers updates return it untouched, the language command preserves it on
every stored row, and any forwarded event that does not classify as hero
leaves the trust of every existing row as it was. -/
theorem trust_status_written_only_by_hero (tr : Translations)
    (text chat_type lang : String) (now : ℤ) (user : User) (msg : Message)
    (store : Store) (uid : Nat) :
    ((process_bag_message tr text now user).1.trust_status = user.trust_status)
    ∧ ((process_numbers_message tr text now user).1.trust_status = user.trust_status)
    ∧ (∀ i u, store i = some u →
        ∃ u', (set_language_command tr chat_type uid lang store).1 i = some u' ∧
          u'.trust_status = u.trust_status)
    ∧ (classify msg.text ≠ MessageKind.hero →
        ∀ i u, store i = some u →
          ∃ u', (process_forwarded_message tr msg now store).1 i = some u' ∧
            u'.trust_status = u.trust_status) := by
  refine ⟨rfl, rfl, ?_, ?_⟩
  · intro i u hu
    by_cases hpriv : chat_type ≠ "private"
    · exact ⟨u, by simp [set_language_command, if_pos hpriv, hu], rfl⟩
    · rcases hst : store uid with _ | user0
      · exact ⟨u, by simp [set_language_command, if_neg hpriv, hst, hu], rfl⟩
      · by_cases hiu : i = uid
        · subst hiu
          rw [hst] at hu
          injection hu with hu0
          subst hu0
          exact ⟨{ user0 with language := lang },
            by simp [set_language_command, if_neg hpriv, hst, storeInsert], rfl⟩
        · exact ⟨u,
            by simp [set_language_command, if_neg hpriv, hst, storeInsert, hiu, hu],
            rfl⟩
  · intro hnothero i u hu
    by_cases h1 : msg.forward_from_username ≠ some "ChatWarsBot"
    · exact ⟨u, by simp [process_forwarded_message, if_pos h1, hu], rfl⟩
    by_cases h2 : msg.chat_type ≠ "private"
    · exact ⟨u, by simp [process_forwarded_message, if_neg h1, if_pos h2, hu], rfl⟩
    by_cases h3 : now - msg.forward_date > 40 * usPerSecond
    · exact ⟨u, by simp [process_forwarded_message, if_neg h1, if_neg h2, h3, hu], rfl⟩
    rcases hst : store msg.from_user_id with _ | user0
    · have hiu : i ≠ msg.from_user_id := by
        intro he
        rw [he, hst] at hu
        exact Option.noConfusion hu
      exact ⟨u, by simp [process_forwarded_message, if_neg h1, if_neg h2, h3, hst,
        storeInsert, hiu, hu], rfl⟩
    · rcases hcl : classify msg.text with _ | _ | _ | _
      · exact absurd hcl hnothero
      · by_cases hiu : i = msg.from_user_id
        · subst hiu
          rw [hst] at hu
          injection hu with hu0
          subst hu0
          exact ⟨(process_bag_message tr msg.text now user0).1,
            by simp [process_forwarded_message, if_neg h1, if_neg h2, h3, hst, hcl,
              storeInsert], rfl⟩
        · exact ⟨u, by simp [process_forwarded_message, if_neg h1, if_neg h2, h3,
            hst, hcl, storeInsert, hiu, hu], rfl⟩
      · by_cases hiu : i = msg.from_user_id
        · subst hiu
          rw [hst] at hu
          injection hu with hu0
          subst hu0
          exact ⟨(process_numbers_message tr msg.text now user0).1,
            by simp [process_forwarded_message, if_neg h1, if_neg h2, h3, hst, hcl,
              storeInsert], rfl⟩
        · exact ⟨u, by simp [process_forwarded_message, if_neg h1, if_neg h2, h3,
            hst, hcl, storeInsert, hiu, hu], rfl⟩
      · exact ⟨u, by simp [process_forwarded_message, if_neg h1, if_neg h2, h3,
          hst, hcl, hu], rfl⟩

/-- C9 witness: setting the language of the stored untrusted user and
processing their fresh equipment forward both leave `trust_status` at
untrusted. -/
theorem trust_status_written_only_by_hero_witness :
    ((set_language_command noTranslations "private" 7 "ru" oneUserStore).1 7).map
      User.trust_status = some (some "untrusted") ∧
    ((process_forwarded_message noTranslations bagMsg 0 oneUserStore).1 7).map
      User.trust_status = some (some "untrusted") := by
  constructor
  · obtain ⟨u', h1, h2⟩ := (trust_status_written_only_by_hero noTranslations
      "x" "private" "ru" 0 existingUser bagMsg oneUserStore 7).2.2.1
      7 existingUser rfl
    rw [h1]
    simp [h2, existingUser]
  · obtain ⟨u', h1, h2⟩ := (trust_status_written_only_by_hero noTranslations
      "x" "private" "ru" 0 existingUser bagMsg oneUserStore 7).2.2.2
      (by decide) 7 existingUser rfl
    rw [h1]
    simp [h2, existingUser]

end CwBot
